import Mathlib

/-! Upload handlers of the video service.

A shallow embedding of `handler_upload_thumbnail.go` and `handler_upload_video.go`.

Every call a handler makes to a collaborator (UUID parsing, bearer token and JWT
validation, the operating system, the `ffmpeg` and `ffprobe` subprocesses, the object
store, the record store) is a step of a pure function: the collaborator's verdict is
read from the `Request` or the `World`, its effect is applied to the `Stores`, and the
call is appended to the trace of the run.
-/

namespace Tubely

/-! ## Data model -/

/-- A `uuid.UUID`, kept as the number its 16 bytes denote. -/
abbrev UUID := Nat

/-- A byte sequence (`[]byte`). -/
abbrev Bytes := List Nat

/-- Modelled from the spec: the `database.Video` record type is declared outside the
handler files; the handlers read `UserID` and write the two nullable URL fields. -/
structure Video where
  ID : UUID
  UserID : UUID
  ThumbnailURL : Option String
  VideoURL : Option String
deriving DecidableEq, Repr

/-- Modelled from the spec: the `thumbnail` cache entry type (raw bytes, content type),
declared outside the handler files. -/
structure thumbnail where
  data : Bytes
  mediaType : String
deriving DecidableEq, Repr

/-- Modelled from the spec: the recognised configuration options held by `apiConfig`
(declared outside the handler files). -/
structure apiConfig where
  jwtSecret : String
  assetsRoot : String
  s3Bucket : String
  s3CfDistribution : String
deriving DecidableEq, Repr

/-- One file part of a multipart form: the value of its `Content-Type` part header
(empty when the header is absent) and its bytes. -/
structure Part where
  contentType : String
  data : Bytes
deriving DecidableEq, Repr

/-- What a handler reads from the incoming HTTP request. -/
structure Request where
  /-- Result of `uuid.Parse(r.PathValue("videoID"))`, `none` on a parse error. -/
  videoID : Option UUID
  /-- Result of `auth.GetBearerToken(r.Header)`, `none` on an error. -/
  bearer : Option String
  /-- Number of bytes of the request body that parsing the multipart form reads. -/
  bodySize : Nat
  /-- The file fields of the multipart form, by field name. -/
  form : List (String × Part)
  /-- Whether `r.FormFile` ends without a form because parsing the body with this
  `maxMemory` fails on size with `multipart.ErrMessageTooLarge`: the non-file values,
  names and headers of the form need more than `maxMemory` + 10 MiB of memory. -/
  formTooLarge : Nat → Bool

/-- Verdict of the parameter loop of `mime.ParseMediaType` on the text that follows the
media type; it is consulted only when that text is not empty. -/
inductive ParamVerdict where
  | ok
  | invalidParameter
  | duplicateName
deriving DecidableEq, Repr

/-- What `ffprobe` did: it failed to run, printed something that is not the expected
JSON, or printed streams with these `display_aspect_ratio` values. -/
inductive ProbeOutput where
  | runFailed
  | invalidJSON
  | streams (displayAspectRatios : List String)
deriving DecidableEq, Repr

/-- Verdicts of the collaborators during one request. -/
structure World where
  /-- The function `auth.ValidateJWT(token, secret)`, `none` on an error. -/
  ValidateJWT : String → String → Option UUID
  paramVerdict : ParamVerdict
  /-- The text `base64.RawURLEncoding.EncodeToString(name)` of 32 bytes of `crypto/rand`. -/
  randomName : String
  /-- Result of `os.CreateTemp("", "tubely-upload.mp4")`: the new file's name. -/
  createTemp : Option String
  /-- Whether `os.Create(path)` succeeds. -/
  osCreate : Bool
  /-- Result of `io.Copy`: `none` on success, `some n` on an error after `n` bytes. -/
  ioCopy : Option Nat
  /-- Whether `io.ReadAll(file)` succeeds. -/
  readAll : Bool
  /-- What `ffmpeg` wrote to its output path, `none` when it fails. -/
  ffmpeg : Option Bytes
  ffprobe : ProbeOutput
  /-- Whether `os.ReadFile(processedVideo)` succeeds. -/
  readFile : Bool
  /-- Whether `cfg.s3Client.PutObject` succeeds. -/
  putObject : Bool
  /-- Whether `cfg.db.GetVideo` fails although the record exists. -/
  getVideoErr : Bool
  /-- Whether `cfg.db.UpdateVideo` fails. -/
  updateVideoErr : Bool

/-- A call made by a handler, in the order of the source. -/
inductive Event where
  /-- Modelled from the spec: `respondWithError` and `respondWithJSON` are defined
  outside the handler files; each writes one response with the given status. -/
  | respond (status : Nat)
  | createTemp (path : Option String)
  | osCreate (path : String) (ok : Bool)
  | ioCopy (dst : String) (ok : Bool)
  | readAll (ok : Bool)
  | ffmpeg (input output : String) (ok : Bool)
  | ffprobe (input : String)
  | readFile (path : String) (ok : Bool)
  | putObject (key : String) (ok : Bool)
  | getVideo (id : UUID) (result : Option Video)
  | updateVideo (video : Video) (ok : Bool)
  | cacheInsert (id : UUID) (entry : thumbnail)
  | cacheDelete (id : UUID)
  | osRemove (path : String)
  /-- The run-time failure of indexing a slice out of range. -/
  | indexOutOfRange
deriving DecidableEq, Repr

/-- The mutable resources a handler touches. -/
structure Stores where
  /-- Local files: path and content. -/
  fs : List (String × Bytes)
  /-- The process-wide map `videoThumbnails`. -/
  cache : List (UUID × thumbnail)
  /-- The record store behind `cfg.db`. -/
  db : List Video
  /-- The objects of the bucket: key and body. -/
  bucket : List (String × Bytes)
deriving DecidableEq, Repr

/-- A run in progress: the stores and the calls made so far. -/
structure Run where
  st : Stores
  trace : List Event
deriving DecidableEq, Repr

def Run.emit (x : Run) (e : Event) : Run :=
  { x with trace := x.trace ++ [e] }

/-! ## Stores -/

def writeFile (fs : List (String × Bytes)) (path : String) (content : Bytes) :
    List (String × Bytes) :=
  (path, content) :: fs.filter (fun f => f.1 ≠ path)

def removeFile (fs : List (String × Bytes)) (path : String) : List (String × Bytes) :=
  fs.filter (fun f => f.1 ≠ path)

def fileContent (fs : List (String × Bytes)) (path : String) : Option Bytes :=
  (fs.find? (fun f => f.1 = path)).map (fun f => f.2)

def cacheSet (c : List (UUID × thumbnail)) (id : UUID) (t : thumbnail) :
    List (UUID × thumbnail) :=
  (id, t) :: c.filter (fun e => e.1 ≠ id)

def cacheDel (c : List (UUID × thumbnail)) (id : UUID) : List (UUID × thumbnail) :=
  c.filter (fun e => e.1 ≠ id)

def cacheGet (c : List (UUID × thumbnail)) (id : UUID) : Option thumbnail :=
  (c.find? (fun e => e.1 = id)).map (fun e => e.2)

/-- Modelled from the spec: `GetVideo(id) -> (record, error)` of the record store, whose
code is outside the handler files; a missing record is an error. -/
def GetVideo (db : List Video) (getVideoErr : Bool) (id : UUID) : Option Video :=
  if getVideoErr then none else db.find? (fun v => v.ID = id)

/-- Modelled from the spec: `UpdateVideo(record) -> error` of the record store, whose
code is outside the handler files; a successful update replaces the record of that id. -/
def UpdateVideo (db : List Video) (video : Video) : List Video :=
  db.map (fun v => if v.ID = video.ID then video else v)

/-! ## `mime.ParseMediaType` and `strings.Split` -/

/-- The function `unicode.IsSpace`. -/
def isSpace (c : Char) : Bool :=
  let n := c.toNat
  (9 ≤ n ∧ n ≤ 13) ∨ n = 0x20 ∨ n = 0x85 ∨ n = 0xA0 ∨ n = 0x1680 ∨
    (0x2000 ≤ n ∧ n ≤ 0x200A) ∨ n = 0x2028 ∨ n = 0x2029 ∨ n = 0x202F ∨ n = 0x205F ∨
    n = 0x3000

/-- The function `unicode.ToLower` on the code points whose image is ASCII: the letters
`A`..`Z`, U+0130 and U+212A. Every other code point outside ASCII stays outside ASCII
under `unicode.ToLower` and is left as it is: it is no token character either way. -/
def toLower (c : Char) : Char :=
  if c.toNat = 0x212A then Char.ofNat 0x6B
  else if c.toNat = 0x130 then Char.ofNat 0x69
  else c.toLower

/-- The function `strings.TrimSpace`. -/
def trimSpace (s : List Char) : List Char :=
  ((s.dropWhile isSpace).reverse.dropWhile isSpace).reverse

/-- The function `isTSpecial`: membership in the fifteen special characters of RFC 2045
(round and square brackets, angle brackets, at sign, comma, semicolon, colon,
backslash, double quote, slash, question mark, equals sign), by code point. -/
def isTSpecial (c : Char) : Bool :=
  [40, 41, 60, 62, 64, 44, 59, 58, 92, 34, 47, 91, 93, 63, 61].contains c.toNat

/-- The function `isTokenChar`. -/
def isTokenChar (c : Char) : Bool :=
  0x20 < c.toNat ∧ c.toNat < 0x7f ∧ ¬ isTSpecial c

/-- The function `consumeToken`: the longest prefix of token characters, and the rest. -/
def consumeToken (v : List Char) : List Char × List Char :=
  (v.takeWhile isTokenChar, v.dropWhile isTokenChar)

/-- The function `checkMediaTypeDisposition`; `none` is the nil error. -/
def checkMediaTypeDisposition (s : List Char) : Option String :=
  let typ := (consumeToken s).1
  let rest := (consumeToken s).2
  if typ = [] then some "mime: no media type"
  else if rest = [] then none
  else if rest.head? ≠ some (Char.ofNat 47) then some "mime: expected slash after first token"
  else
    let subtype := (consumeToken rest.tail).1
    let rest2 := (consumeToken rest.tail).2
    if subtype = [] then some "mime: expected token after slash"
    else if rest2 ≠ [] then some "mime: unexpected content after media subtype"
    else none

/-- The function `mime.ParseMediaType` without its parameter map: the media type and
the error (`none` is nil). The parameter loop runs only on a non-empty remainder. -/
def ParseMediaType (params : ParamVerdict) (v : String) : String × Option String :=
  let base := v.data.takeWhile (fun c => c ≠ Char.ofNat 59)
  let mediatype := trimSpace (base.map toLower)
  match checkMediaTypeDisposition mediatype with
  | some err => ("", some err)
  | none =>
    if v.data.dropWhile (fun c => c ≠ Char.ofNat 59) = [] then (String.mk mediatype, none)
    else
      match params with
      | .ok => (String.mk mediatype, none)
      | .invalidParameter => (String.mk mediatype, some "mime: invalid media parameter")
      | .duplicateName => ("", some "mime: duplicate parameter name")

/-- The pieces of `strings.Split(s, sep)` for a one-character separator. -/
def splitOnChar (sep : Char) : List Char → List (List Char)
  | [] => [[]]
  | c :: cs =>
    if c = sep then [] :: splitOnChar sep cs
    else
      match splitOnChar sep cs with
      | [] => [[c]]
      | p :: ps => (c :: p) :: ps

/-- The expression `strings.Split(mimeType, "/")[1]`; `none` when the index is out of
range. -/
def fileExtensionOf (mimeType : String) : Option String :=
  ((splitOnChar (Char.ofNat 47) mimeType.data).get? 1).map String.mk


/-! ## Helpers of the handlers -/

def Run.withFs (x : Run) (fs : List (String × Bytes)) : Run :=
  { x with st := { x.st with fs := fs } }

def Run.withCache (x : Run) (c : List (UUID × thumbnail)) : Run :=
  { x with st := { x.st with cache := c } }

def Run.withDb (x : Run) (db : List Video) : Run :=
  { x with st := { x.st with db := db } }

def Run.withBucket (x : Run) (b : List (String × Bytes)) : Run :=
  { x with st := { x.st with bucket := b } }

/-- The method `r.FormFile(key)`: the first file of that field, `none` on an error. -/
def FormFile (form : List (String × Part)) (key : String) : Option Part :=
  (form.find? (fun f => f.1 = key)).map (fun f => f.2)

/-- The elements that `filepath.Clean` keeps, last first: empty and `.` elements are
dropped, a `..` element removes the element before it, is dropped at the root and is
kept at the start of a path that is not rooted. -/
def cleanElems (rooted : Bool) : List (List Char) → List (List Char) → List (List Char)
  | [], stack => stack
  | e :: es, stack =>
    if e = [] ∨ e = [Char.ofNat 46] then cleanElems rooted es stack
    else if e = [Char.ofNat 46, Char.ofNat 46] then
      match stack with
      | top :: rest =>
        if top = [Char.ofNat 46, Char.ofNat 46] then cleanElems rooted es (e :: stack)
        else cleanElems rooted es rest
      | [] => if rooted then cleanElems rooted es [] else cleanElems rooted es [e]
    else cleanElems rooted es (e :: stack)

/-- The elements of a path, joined by slashes. -/
def joinElems : List (List Char) → List Char
  | [] => []
  | [e] => e
  | e :: es => e ++ (Char.ofNat 47 :: joinElems es)

/-- The function `filepath.Clean` with the slash as separator. -/
def filepathClean (path : String) : String :=
  if path = "" then "."
  else
    let rooted := path.data.head? = some (Char.ofNat 47)
    let body := joinElems (cleanElems rooted (splitOnChar (Char.ofNat 47) path.data) []).reverse
    if rooted then String.mk (Char.ofNat 47 :: body)
    else if body = [] then "."
    else String.mk body

/-- The function `filepath.Join` of two elements: empty elements are ignored and the
result is cleaned. -/
def filepathJoin (dir file : String) : String :=
  if dir ≠ "" then filepathClean (dir ++ "/" ++ file)
  else if file ≠ "" then filepathClean file
  else ""

/-- The constant `maxUploadSize` of `handlerUploadVideo` (1 GB). -/
def maxUploadSize : Nat := 1 <<< 30

/-- The constant `maxMemory` of `handlerUploadThumbnail` (10 MB): the argument of
`r.ParseMultipartForm`, the number of bytes of file parts kept in memory before the
rest is spilled to disk. The call's result is not looked at. -/
def maxMemory : Nat := 10 <<< 20

/-- The constant `defaultMaxMemory` of `net/http` (32 MB), with which `r.FormFile` parses
a form that has not been parsed yet. -/
def defaultMaxMemory : Nat := 32 <<< 20

/-- The function `getVideoAspectRatio`, given what the probe printed. -/
def getVideoAspectRatio (probe : ProbeOutput) : Except String String :=
  match probe with
  | .runFailed => .error "ffprobe failed"
  | .invalidJSON => .error "invalid JSON from ffprobe"
  | .streams [] => .error "no streams found"
  | .streams (d :: _) => .ok d

/-- The function `processVideoForFastStart`, given what `ffmpeg` did: the new path on
success, and the local files afterwards. -/
def processVideoForFastStart (ffmpeg : Option Bytes) (filePath : String)
    (fs : List (String × Bytes)) : Option String × List (String × Bytes) :=
  let newPath := filePath ++ ".processing"
  match ffmpeg with
  | none => (none, fs)
  | some out => (some newPath, writeFile fs newPath out)

/-- The `switch ratio` of `handlerUploadVideo`: the storage key for a file name. -/
def classifyKey (ratio fileName : String) : String :=
  if ratio = "16:9" then "landscape/" ++ fileName
  else if ratio = "9:16" then "portrait/" ++ fileName
  else "other/" ++ fileName

/-! ## `handlerUploadVideo` -/

/-- The part of `handlerUploadVideo` after `os.CreateTemp` succeeded with name `tmp`. -/
def uploadVideoStaged (cfg : apiConfig) (w : World) (videoID userID : UUID) (file : Part)
    (mimeType tmp : String) (x : Run) : Run :=
  match fileExtensionOf mimeType with
  | none => x.emit .indexOutOfRange
  | some fileExtension =>
  let fileName := w.randomName ++ "." ++ fileExtension
  -- io.Copy(tmp, file)
  match w.ioCopy with
  | some n => (x.withFs (writeFile x.st.fs tmp (file.data.take n))).emit (.ioCopy tmp false)
  | none =>
  let x := (x.withFs (writeFile x.st.fs tmp file.data)).emit (.ioCopy tmp true)
  -- processVideoForFastStart(tmp.Name())
  match processVideoForFastStart w.ffmpeg tmp x.st.fs with
  | (none, _) => (x.emit (.ffmpeg tmp (tmp ++ ".processing") false)).emit (.respond 500)
  | (some processedVideo, fs) =>
  let x := (x.withFs fs).emit (.ffmpeg tmp processedVideo true)
  -- getVideoAspectRatio(tmp.Name())
  let x := x.emit (.ffprobe tmp)
  match getVideoAspectRatio w.ffprobe with
  | .error _ => x.emit (.respond 500)
  | .ok ratio =>
  let fileName := classifyKey ratio fileName
  -- os.ReadFile(processedVideo)
  match (if w.readFile then fileContent x.st.fs processedVideo else none) with
  | none => (x.emit (.readFile processedVideo false)).emit (.respond 500)
  | some processedFile =>
  let x := x.emit (.readFile processedVideo true)
  let video_url := cfg.s3CfDistribution ++ "/" ++ fileName
  -- cfg.s3Client.PutObject: its results are dropped
  let x :=
    if w.putObject then
      (x.withBucket ((fileName, processedFile) ::
        x.st.bucket.filter (fun o => o.1 ≠ fileName))).emit (.putObject fileName true)
    else x.emit (.putObject fileName false)
  -- cfg.db.GetVideo(videoID)
  match GetVideo x.st.db w.getVideoErr videoID with
  | none => (x.emit (.getVideo videoID none)).emit (.respond 500)
  | some video =>
  let x := x.emit (.getVideo videoID (some video))
  if video.UserID ≠ userID then x.emit (.respond 401) else
  let video := { video with VideoURL := some video_url }
  -- cfg.db.UpdateVideo(video)
  if w.updateVideoErr then (x.emit (.updateVideo video false)).emit (.respond 500) else
  ((x.withDb (UpdateVideo x.st.db video)).emit (.updateVideo video true)).emit (.respond 200)

/-- The handler `handlerUploadVideo`. -/
def handlerUploadVideo (cfg : apiConfig) (r : Request) (w : World) (st : Stores) : Run :=
  let x : Run := ⟨st, []⟩
  match r.videoID with
  | none => x.emit (.respond 400)
  | some videoID =>
  match r.bearer with
  | none => x.emit (.respond 401)
  | some token =>
  match w.ValidateJWT token cfg.jwtSecret with
  | none => x.emit (.respond 401)
  | some userID =>
  -- r.Body = http.MaxBytesReader(w, r.Body, maxUploadSize); r.FormFile("video")
  match (if r.bodySize > maxUploadSize ∨ r.formTooLarge defaultMaxMemory then none
         else FormFile r.form "video") with
  | none => x.emit (.respond 400)
  | some file =>
  let mediaType := file.contentType
  if mediaType = "" then x.emit (.respond 400) else
  let parsed := ParseMediaType w.paramVerdict mediaType
  let mimeType := parsed.1
  if parsed.2.isSome then x.emit (.respond 500) else
  if mimeType ≠ "video/mp4" then x.emit (.respond 500) else
  -- os.CreateTemp("", "tubely-upload.mp4")
  match w.createTemp with
  | none => (x.emit (.createTemp none)).emit (.respond 500)
  | some tmp =>
  let x := (x.withFs (writeFile x.st.fs tmp [])).emit (.createTemp (some tmp))
  let y := uploadVideoStaged cfg w videoID userID file mimeType tmp x
  -- defer os.Remove(tmp.Name())
  (y.withFs (removeFile y.st.fs tmp)).emit (.osRemove tmp)

/-! ## `handlerUploadThumbnail` -/

/-- The handler `handlerUploadThumbnail`. -/
def handlerUploadThumbnail (cfg : apiConfig) (r : Request) (w : World) (st : Stores) : Run :=
  let x : Run := ⟨st, []⟩
  match r.videoID with
  | none => x.emit (.respond 400)
  | some videoID =>
  match r.bearer with
  | none => x.emit (.respond 401)
  | some token =>
  match w.ValidateJWT token cfg.jwtSecret with
  | none => x.emit (.respond 401)
  | some userID =>
  -- r.ParseMultipartForm(maxMemory), whose error is dropped; r.FormFile("thumbnail")
  match (if r.formTooLarge maxMemory then none else FormFile r.form "thumbnail") with
  | none => x.emit (.respond 400)
  | some file =>
  let mediaType := file.contentType
  if mediaType = "" then x.emit (.respond 400) else
  let parsed := ParseMediaType w.paramVerdict mediaType
  let mimeType := parsed.1
  -- the error branch has no return
  let x := if parsed.2.isSome then x.emit (.respond 500) else x
  match fileExtensionOf mimeType with
  | none => x.emit .indexOutOfRange
  | some fileExtension =>
  let fileName := w.randomName ++ "." ++ fileExtension
  let path := filepathJoin cfg.assetsRoot fileName
  -- os.Create(path): the error branch has no return, saveFile is nil after it
  if ¬ w.osCreate then
    ((x.emit (.osCreate path false)).emit (.respond 500)).emit (.ioCopy path false)
  else
  let x := (x.withFs (writeFile x.st.fs path [])).emit (.osCreate path true)
  -- io.Copy(saveFile, file)
  match w.ioCopy with
  | some n => (x.withFs (writeFile x.st.fs path (file.data.take n))).emit (.ioCopy path false)
  | none =>
  let x := (x.withFs (writeFile x.st.fs path file.data)).emit (.ioCopy path true)
  -- io.ReadAll(file): the copy has read the stream to its end, this reads what is left
  if ¬ w.readAll then (x.emit (.readAll false)).emit (.respond 500) else
  let data := file.data.drop file.data.length
  let x := x.emit (.readAll true)
  -- cfg.db.GetVideo(videoID)
  match GetVideo x.st.db w.getVideoErr videoID with
  | none => (x.emit (.getVideo videoID none)).emit (.respond 500)
  | some video =>
  let x := x.emit (.getVideo videoID (some video))
  if video.UserID ≠ userID then x.emit (.respond 401) else
  let entry : thumbnail := { data := data, mediaType := mediaType }
  let x := (x.withCache (cacheSet x.st.cache videoID entry)).emit (.cacheInsert videoID entry)
  let thumbnail_url := "http://localhost:8091/assets/" ++ fileName
  let video := { video with ThumbnailURL := some thumbnail_url }
  -- cfg.db.UpdateVideo(video)
  if w.updateVideoErr then
    (((x.emit (.updateVideo video false)).withCache (cacheDel x.st.cache videoID)).emit
      (.cacheDelete videoID)).emit (.respond 500)
  else
  ((x.withDb (UpdateVideo x.st.db video)).emit (.updateVideo video true)).emit (.respond 200)

/-- The two upload endpoints. -/
inductive Endpoint where
  | thumbnail
  | video
deriving DecidableEq, Repr

/-- The handler of an endpoint. -/
def handle (e : Endpoint) (cfg : apiConfig) (r : Request) (w : World) (st : Stores) : Run :=
  match e with
  | .thumbnail => handlerUploadThumbnail cfg r w st
  | .video => handlerUploadVideo cfg r w st

/-! ## Sample inputs -/

def sampleCfg : apiConfig :=
  { jwtSecret := "secret", assetsRoot := "./assets", s3Bucket := "tubely",
    s3CfDistribution := "https://cdn.example.com" }

/-- A record store with one video, id 1, owned by principal 7, no URL set. -/
def sampleStores : Stores :=
  { fs := [], cache := [], bucket := [],
    db := [{ ID := 1, UserID := 7, ThumbnailURL := none, VideoURL := none }] }

/-- A world in which every collaborator succeeds and the bearer token of the request
is the credential of principal `p`. -/
def worldOf (p : UUID) : World :=
  { ValidateJWT := fun _ _ => some p, paramVerdict := .ok, randomName := "AAAA",
    createTemp := some "/tmp/tubely-upload.mp4123", osCreate := true, ioCopy := none,
    readAll := true, ffmpeg := some [1, 2, 3, 4], ffprobe := .streams ["16:9"],
    readFile := true, putObject := true, getVideoErr := false, updateVideoErr := false }

/-- A request for video 1 with one file part under `field`, whose form parses within the
memory limits. -/
def requestOf (field contentType : String) (data : Bytes) (bodySize : Nat) : Request :=
  { videoID := some 1, bearer := some "token", bodySize := bodySize,
    form := [(field, { contentType := contentType, data := data })],
    formTooLarge := fun _ => false }

/-- The statuses of the responses written during a run, in order. -/
def responses (t : List Event) : List Nat :=
  t.filterMap (fun e => match e with
    | .respond c => some c
    | _ => none)

/-- The status that the client receives, when a response is written: the response
writer of `net/http` sends the status of the first `WriteHeader` call and ignores the
later ones. -/
def statusSent (t : List Event) : Option Nat :=
  (responses t).head?

/-- The function `strings.HasPrefix`. -/
def hasPrefix (s p : String) : Bool :=
  p.data.isPrefixOf s.data

/-- The record of video 1 in `sampleStores`. -/
def sampleVideo : Video :=
  { ID := 1, UserID := 7, ThumbnailURL := none, VideoURL := none }

/-- An upload of four bytes of an mp4 file for video 1, in a body of 500 bytes. -/
def videoUpload : Request :=
  requestOf "video" "video/mp4" [0, 0, 0, 32] 500

/-- An upload of the first four bytes of a JPEG file as the thumbnail of video 1, in a
body of 500 bytes. -/
def thumbnailUpload : Request :=
  requestOf "thumbnail" "image/jpeg" [255, 216, 255, 224] 500

/-- The world of the owner's upload in which `PutObject` fails. -/
def failedPublishWorld : World :=
  { worldOf 7 with putObject := false }

/-- The world of the owner's upload in which `io.Copy` fails after two bytes. -/
def failedCopyWorld : World :=
  { worldOf 7 with ioCopy := some 2 }

/-- The world of the owner's upload in which `os.Create` fails. -/
def failedCreateWorld : World :=
  { worldOf 7 with osCreate := false }

/-- The world of the owner's upload in which `GetVideo` fails. -/
def failedLookupWorld : World :=
  { worldOf 7 with getVideoErr := true }

/-- The world of an upload by principal 8 in which the parameter loop of
`mime.ParseMediaType` reports an invalid parameter. -/
def invalidParamWorld : World :=
  { worldOf 8 with paramVerdict := .invalidParameter }

/-- An upload of the first four bytes of a PNG file as the thumbnail of video 1, in a part
declared `image/png; foo`: the parameter `foo` has no value. -/
def invalidParamThumbnail : Request :=
  requestOf "thumbnail" "image/png; foo" [137, 80, 78, 71] 500

/-- A thumbnail upload for video 1 whose request body is one byte larger than 10 MiB:
the thumbnail part and other form fields. -/
def overBudgetThumbnail : Request :=
  requestOf "thumbnail" "image/jpeg" [255, 216, 255, 224] (maxMemory + 1)

/-- A video upload for video 1 whose request body is one byte larger than 1 GiB. -/
def overBudgetVideo : Request :=
  requestOf "video" "video/mp4" [0, 0, 0, 32] (maxUploadSize + 1)

/-! ## Lemmas on the steps -/

theorem fileContent_writeFile (fs : List (String × Bytes)) (path : String) (d : Bytes) :
    fileContent (writeFile fs path d) path = some d := by
  simp [fileContent, writeFile]

theorem fileExtensionOf_mp4 : fileExtensionOf "video/mp4" = some "mp4" := by decide

theorem processVideoForFastStart_eq_some (f : Option Bytes) (p q : String)
    (fs fs2 : List (String × Bytes)) :
    processVideoForFastStart f p fs = (some q, fs2) ↔
      q = p ++ ".processing" ∧
        ∃ out, f = some out ∧ fs2 = writeFile fs (p ++ ".processing") out := by
  unfold processVideoForFastStart
  cases f with
  | none => simp
  | some out =>
    simp only [Prod.mk.injEq, Option.some.injEq, exists_eq_left']
    constructor
    · rintro ⟨h1, h2⟩
      exact ⟨h1.symm, h2.symm⟩
    · rintro ⟨h1, h2⟩
      exact ⟨h1.symm, h2.symm⟩

set_option maxHeartbeats 4000000 in
/-- The run of `handlerUploadVideo` in which `GetVideo` returns a record that the
principal does not own. -/
theorem video_run_of_mismatch (cfg : apiConfig) (r : Request) (w : World)
    (st : Stores) (token : String) (p id : UUID) (v : Video)
    (htok : r.bearer = some token)
    (hjwt : w.ValidateJWT token cfg.jwtSecret = some p)
    (hne : v.UserID ≠ p)
    (hget : Event.getVideo id (some v) ∈ (handlerUploadVideo cfg r w st).trace) :
    (∃ tmp ratio, (handlerUploadVideo cfg r w st).trace =
      [.createTemp (some tmp), .ioCopy tmp true, .ffmpeg tmp (tmp ++ ".processing") true,
        .ffprobe tmp, .readFile (tmp ++ ".processing") true,
        .putObject (classifyKey ratio (w.randomName ++ "." ++ "mp4")) w.putObject,
        .getVideo id (some v), .respond 401, .osRemove tmp]) ∧
    (handlerUploadVideo cfg r w st).st.cache = st.cache ∧
    (handlerUploadVideo cfg r w st).st.db = st.db := by
  revert hget
  unfold handlerUploadVideo uploadVideoStaged
  simp only [Run.emit, Run.withFs, Run.withBucket, Run.withDb, List.nil_append, htok]
  repeat' split
  all_goals first
    | (simp_all [fileExtensionOf_mp4, processVideoForFastStart_eq_some]; done)
    | (simp_all [fileExtensionOf_mp4, processVideoForFastStart_eq_some]
       intro _ _
       exact ⟨_, rfl⟩)
    | (simp_all [fileExtensionOf_mp4, processVideoForFastStart_eq_some]
       rintro - rfl
       contradiction)

set_option maxHeartbeats 4000000 in
/-- The run of `handlerUploadThumbnail` in which `GetVideo` returns a record that the
principal does not own. -/
theorem thumbnail_run_of_mismatch (cfg : apiConfig) (r : Request) (w : World)
    (st : Stores) (token : String) (p id : UUID) (v : Video)
    (htok : r.bearer = some token)
    (hjwt : w.ValidateJWT token cfg.jwtSecret = some p)
    (hne : v.UserID ≠ p)
    (hget : Event.getVideo id (some v) ∈ (handlerUploadThumbnail cfg r w st).trace) :
    ∃ pre path file, (pre = [] ∨ pre = [Event.respond 500]) ∧
      FormFile r.form "thumbnail" = some file ∧
      (handlerUploadThumbnail cfg r w st).trace =
        pre ++ [.osCreate path true, .ioCopy path true, .readAll true,
          .getVideo id (some v), .respond 401] ∧
      fileContent (handlerUploadThumbnail cfg r w st).st.fs path = some file.data ∧
      (handlerUploadThumbnail cfg r w st).st.cache = st.cache ∧
      (handlerUploadThumbnail cfg r w st).st.db = st.db := by
  revert hget
  unfold handlerUploadThumbnail
  simp only [Run.emit, Run.withFs, Run.withCache, Run.withDb, List.nil_append, htok]
  repeat' split
  all_goals first
    | (simp_all [fileContent_writeFile]; done)
    | (simp_all [fileContent_writeFile]
       rintro - rfl
       contradiction)

/-! ## The claims -/

/-- C1: evaluation of `handlerUploadThumbnail` at an upload by principal 8 for video 1,
owned by principal 7, in a part declared `image/png; foo`. The media type does not
parse, 500 is written and the handler goes on; `GetVideo` returns the record of
principal 7 and 401 is written second. The status sent is 500, not 401; `UpdateVideo`
is not called. -/
theorem non_owner_thumbnail_is_answered_500 :
    invalidParamWorld.ValidateJWT "token" sampleCfg.jwtSecret = some 8 ∧
    sampleVideo.UserID ≠ 8 ∧
    ParseMediaType .invalidParameter "image/png; foo" =
      ("image/png", some "mime: invalid media parameter") ∧
    (handlerUploadThumbnail sampleCfg invalidParamThumbnail invalidParamWorld
      sampleStores).trace =
      [.respond 500, .osCreate "assets/AAAA.png" true, .ioCopy "assets/AAAA.png" true,
        .readAll true, .getVideo 1 (some sampleVideo), .respond 401] ∧
    statusSent (handlerUploadThumbnail sampleCfg invalidParamThumbnail invalidParamWorld
      sampleStores).trace = some 500 ∧
    (handlerUploadThumbnail sampleCfg invalidParamThumbnail invalidParamWorld
      sampleStores).st.db = sampleStores.db := by
  decide

/-- C2: the storage key of `handlerUploadVideo` is a total function of the ratio token:
prefix `landscape/` for `16:9`, `portrait/` for `9:16`, `other/` for every other
token, the key starts with exactly one of the three prefixes, and every `PutObject`
of the handler uses the key classified from the first stream's ratio. -/
theorem aspect_ratio_classification_total (ratio fileName : String) (cfg : apiConfig)
    (r : Request) (w : World) (st : Stores) :
    (ratio = "16:9" → classifyKey ratio fileName = "landscape/" ++ fileName) ∧
    (ratio = "9:16" → classifyKey ratio fileName = "portrait/" ++ fileName) ∧
    (ratio ≠ "16:9" → ratio ≠ "9:16" → classifyKey ratio fileName = "other/" ++ fileName) ∧
    (["landscape/", "portrait/", "other/"].filter
        (fun p => hasPrefix (classifyKey ratio fileName) p)).length = 1 ∧
    (∀ key ok, Event.putObject key ok ∈ (handlerUploadVideo cfg r w st).trace →
      ∃ d, getVideoAspectRatio w.ffprobe = .ok d ∧
        key = classifyKey d (w.randomName ++ "." ++ "mp4")) := by
  refine ⟨?_, ?_, ?_, ?_, ?_⟩
  · intro h
    simp [classifyKey, h]
  · intro h
    subst h
    simp [classifyKey]
  · intro h1 h2
    simp [classifyKey, h1, h2]
  · unfold classifyKey
    split_ifs <;> simp [hasPrefix, String.data_append, List.filter, List.isPrefixOf]
  · intro key ok
    unfold handlerUploadVideo uploadVideoStaged
    simp only [Run.emit, Run.withFs, Run.withBucket, Run.withDb, List.nil_append]
    repeat' split
    all_goals simp_all [fileExtensionOf_mp4]

/-- Witness of C2: the tokens `16:9`, `9:16` and the empty token, and the key of a
well-formed upload whose first stream reports `16:9`. -/
theorem aspect_ratio_classification_total_witness :
    classifyKey "16:9" "AAAA.mp4" = "landscape/" ++ "AAAA.mp4" ∧
    classifyKey "9:16" "AAAA.mp4" = "portrait/" ++ "AAAA.mp4" ∧
    classifyKey "" "AAAA.mp4" = "other/" ++ "AAAA.mp4" ∧
    (∃ d, getVideoAspectRatio (worldOf 7).ffprobe = .ok d ∧
      "landscape/AAAA.mp4" = classifyKey d ((worldOf 7).randomName ++ "." ++ "mp4")) :=
  have h1 := aspect_ratio_classification_total "16:9" "AAAA.mp4" sampleCfg videoUpload
    (worldOf 7) sampleStores
  have h2 := aspect_ratio_classification_total "9:16" "AAAA.mp4" sampleCfg videoUpload
    (worldOf 7) sampleStores
  have h3 := aspect_ratio_classification_total "" "AAAA.mp4" sampleCfg videoUpload
    (worldOf 7) sampleStores
  ⟨h1.1 rfl, h2.2.1 rfl, h3.2.2.1 (by decide) (by decide),
    h1.2.2.2.2 "landscape/AAAA.mp4" true (by decide)⟩

/-- C3: evaluation of `handlerUploadVideo` at the owner's well-formed upload, and at the
same upload when `GetVideo` fails: no local file exists before the request, the raw
temporary file is gone when the handler returns, and the processed derivative at
`<temp path>.processing` is still there, after the 200 as after the 500. -/
theorem processed_file_outlives_request :
    sampleStores.fs = [] ∧
    responses (handlerUploadVideo sampleCfg videoUpload (worldOf 7) sampleStores).trace
      = [200] ∧
    fileContent (handlerUploadVideo sampleCfg videoUpload (worldOf 7) sampleStores).st.fs
      "/tmp/tubely-upload.mp4123" = none ∧
    fileContent (handlerUploadVideo sampleCfg videoUpload (worldOf 7) sampleStores).st.fs
      "/tmp/tubely-upload.mp4123.processing" = some [1, 2, 3, 4] ∧
    responses (handlerUploadVideo sampleCfg videoUpload failedLookupWorld sampleStores).trace
      = [500] ∧
    fileContent (handlerUploadVideo sampleCfg videoUpload failedLookupWorld sampleStores).st.fs
      "/tmp/tubely-upload.mp4123.processing" = some [1, 2, 3, 4] := by
  decide

/-- C4: evaluation of `handlerUploadVideo` at the owner's well-formed upload when
`PutObject` fails: the bucket stays empty, yet `UpdateVideo` is called with the new
`VideoURL`, the stored record carries it and the response is 200. -/
theorem failed_publish_still_sets_url :
    Event.putObject "landscape/AAAA.mp4" false ∈
      (handlerUploadVideo sampleCfg videoUpload failedPublishWorld sampleStores).trace ∧
    (handlerUploadVideo sampleCfg videoUpload failedPublishWorld sampleStores).st.bucket = [] ∧
    Event.updateVideo
        { sampleVideo with VideoURL := some "https://cdn.example.com/landscape/AAAA.mp4" }
        true ∈
      (handlerUploadVideo sampleCfg videoUpload failedPublishWorld sampleStores).trace ∧
    (handlerUploadVideo sampleCfg videoUpload failedPublishWorld sampleStores).st.db =
      [{ sampleVideo with VideoURL := some "https://cdn.example.com/landscape/AAAA.mp4" }] ∧
    responses (handlerUploadVideo sampleCfg videoUpload failedPublishWorld sampleStores).trace
      = [200] := by
  decide

/-- C5: in `handlerUploadVideo`, when the media type parsed from the part's
`Content-Type` is not exactly `video/mp4`, the run is a single error response (400,
401 or 500): no temporary file, no `ffmpeg`, no `ffprobe`, no `PutObject`, no
record-store call, and the stores are unchanged. -/
theorem non_mp4_video_is_rejected_without_effects (cfg : apiConfig) (r : Request)
    (w : World) (st : Stores)
    (h : ∀ file, FormFile r.form "video" = some file →
      (ParseMediaType w.paramVerdict file.contentType).1 ≠ "video/mp4") :
    (∃ c, (c = 400 ∨ c = 401 ∨ c = 500) ∧
      (handlerUploadVideo cfg r w st).trace = [.respond c]) ∧
    (∀ path, Event.createTemp path ∉ (handlerUploadVideo cfg r w st).trace) ∧
    (∀ i o ok, Event.ffmpeg i o ok ∉ (handlerUploadVideo cfg r w st).trace) ∧
    (∀ i, Event.ffprobe i ∉ (handlerUploadVideo cfg r w st).trace) ∧
    (∀ key ok, Event.putObject key ok ∉ (handlerUploadVideo cfg r w st).trace) ∧
    (∀ id v, Event.getVideo id v ∉ (handlerUploadVideo cfg r w st).trace) ∧
    (∀ v ok, Event.updateVideo v ok ∉ (handlerUploadVideo cfg r w st).trace) ∧
    (handlerUploadVideo cfg r w st).st = st := by
  unfold handlerUploadVideo
  simp only [Run.emit, List.nil_append]
  repeat' split
  all_goals simp_all

/-- Witness of C5: the owner uploads a part declared `video/webm`. -/
theorem non_mp4_video_is_rejected_without_effects_witness :
    (∀ file, FormFile (requestOf "video" "video/webm" [26, 69, 223, 163] 500).form "video"
        = some file →
      (ParseMediaType (worldOf 7).paramVerdict file.contentType).1 ≠ "video/mp4") ∧
    (handlerUploadVideo sampleCfg (requestOf "video" "video/webm" [26, 69, 223, 163] 500)
      (worldOf 7) sampleStores).trace = [.respond 500] ∧
    (handlerUploadVideo sampleCfg (requestOf "video" "video/webm" [26, 69, 223, 163] 500)
      (worldOf 7) sampleStores).st = sampleStores :=
  have hyp : ∀ file,
      FormFile (requestOf "video" "video/webm" [26, 69, 223, 163] 500).form "video"
        = some file →
      (ParseMediaType (worldOf 7).paramVerdict file.contentType).1 ≠ "video/mp4" := by
    intro file hfile
    have hf : file = { contentType := "video/webm", data := [26, 69, 223, 163] } := by
      have h0 : FormFile (requestOf "video" "video/webm" [26, 69, 223, 163] 500).form "video"
          = some { contentType := "video/webm", data := [26, 69, 223, 163] } := by decide
      rw [h0] at hfile
      exact (Option.some.inj hfile).symm
    subst hf
    decide
  have h := non_mp4_video_is_rejected_without_effects sampleCfg
    (requestOf "video" "video/webm" [26, 69, 223, 163] 500) (worldOf 7) sampleStores hyp
  ⟨hyp, by decide, h.2.2.2.2.2.2.2⟩

/-- C6, the claim fails for thumbnails: a thumbnail upload whose body exceeds 10 MiB
is answered with 200, and the asset file is created, the cache entry inserted and the
record updated. -/
theorem over_budget_thumbnail_is_accepted :
    10 * 1024 * 1024 < overBudgetThumbnail.bodySize ∧
    responses (handlerUploadThumbnail sampleCfg overBudgetThumbnail (worldOf 7)
      sampleStores).trace = [200] ∧
    Event.osCreate "assets/AAAA.jpeg" true ∈
      (handlerUploadThumbnail sampleCfg overBudgetThumbnail (worldOf 7) sampleStores).trace ∧
    Event.cacheInsert 1 { data := [], mediaType := "image/jpeg" } ∈
      (handlerUploadThumbnail sampleCfg overBudgetThumbnail (worldOf 7) sampleStores).trace ∧
    Event.updateVideo
        { sampleVideo with ThumbnailURL := some "http://localhost:8091/assets/AAAA.jpeg" }
        true ∈
      (handlerUploadThumbnail sampleCfg overBudgetThumbnail (worldOf 7) sampleStores).trace := by
  decide

/-- C6 as amended: in `handlerUploadVideo`, a request body above 1 GiB ends the run with
a single error response (400, or the 401 of a failed credential) and leaves the stores
unchanged: no temporary file, no subprocess, no `PutObject`, no record-store call. -/
theorem over_budget_video_is_rejected (cfg : apiConfig) (r : Request) (w : World)
    (st : Stores) (h : maxUploadSize < r.bodySize) :
    (∃ c, (c = 400 ∨ c = 401) ∧ (handlerUploadVideo cfg r w st).trace = [.respond c]) ∧
    (∀ path, Event.createTemp path ∉ (handlerUploadVideo cfg r w st).trace) ∧
    (∀ i o ok, Event.ffmpeg i o ok ∉ (handlerUploadVideo cfg r w st).trace) ∧
    (∀ key ok, Event.putObject key ok ∉ (handlerUploadVideo cfg r w st).trace) ∧
    (∀ v ok, Event.updateVideo v ok ∉ (handlerUploadVideo cfg r w st).trace) ∧
    (handlerUploadVideo cfg r w st).st = st := by
  unfold handlerUploadVideo
  simp only [Run.emit, List.nil_append]
  repeat' split
  all_goals simp_all

/-- Witness of C6 as amended: the owner's mp4 upload in a body of 1 GiB and one byte. -/
theorem over_budget_video_is_rejected_witness :
    maxUploadSize < overBudgetVideo.bodySize ∧
    (handlerUploadVideo sampleCfg overBudgetVideo (worldOf 7) sampleStores).trace
      = [.respond 400] ∧
    (handlerUploadVideo sampleCfg overBudgetVideo (worldOf 7) sampleStores).st = sampleStores :=
  have h := over_budget_video_is_rejected sampleCfg overBudgetVideo (worldOf 7) sampleStores
    (by decide)
  ⟨by decide, by decide, h.2.2.2.2.2⟩

/-- C7: evaluation of `handlerUploadThumbnail` at the owner's upload of the four bytes
`255, 216, 255, 224`: the response is 200 and the asset file holds the four bytes,
but the cache entry of the video holds no byte. -/
theorem cached_thumbnail_is_empty :
    responses (handlerUploadThumbnail sampleCfg thumbnailUpload (worldOf 7)
      sampleStores).trace = [200] ∧
    fileContent (handlerUploadThumbnail sampleCfg thumbnailUpload (worldOf 7)
      sampleStores).st.fs "assets/AAAA.jpeg" = some [255, 216, 255, 224] ∧
    cacheGet (handlerUploadThumbnail sampleCfg thumbnailUpload (worldOf 7)
      sampleStores).st.cache 1 = some { data := [], mediaType := "image/jpeg" } := by
  decide

/-- C8: evaluation at three failures. When `io.Copy` fails, `handlerUploadVideo` returns
without any response. When `os.Create` fails, `handlerUploadThumbnail` writes 500 and
goes on to `io.Copy`. When the media type of the part does not parse,
`handlerUploadThumbnail` writes 500 and goes on to index the split. -/
theorem failures_are_not_all_terminal :
    (handlerUploadVideo sampleCfg videoUpload failedCopyWorld sampleStores).trace =
      [.createTemp (some "/tmp/tubely-upload.mp4123"),
        .ioCopy "/tmp/tubely-upload.mp4123" false,
        .osRemove "/tmp/tubely-upload.mp4123"] ∧
    responses (handlerUploadVideo sampleCfg videoUpload failedCopyWorld sampleStores).trace
      = [] ∧
    responses (handlerUploadThumbnail sampleCfg thumbnailUpload failedCopyWorld
      sampleStores).trace = [] ∧
    (handlerUploadThumbnail sampleCfg thumbnailUpload failedCreateWorld sampleStores).trace =
      [.osCreate "assets/AAAA.jpeg" false, .respond 500,
        .ioCopy "assets/AAAA.jpeg" false] ∧
    (ParseMediaType .ok "image/").2 = some "mime: expected token after slash" ∧
    (handlerUploadThumbnail sampleCfg (requestOf "thumbnail" "image/" [255, 216] 500)
      (worldOf 7) sampleStores).trace = [.respond 500, .indexOutOfRange] := by
  decide

/-- C9, the claim fails: principal 8 uploads for video 1, owned by principal 7. Before the
401, `handlerUploadVideo` has created the temporary file, run `ffmpeg` and `ffprobe`
and put the object into the bucket, and `handlerUploadThumbnail` has created and
written the asset file. -/
theorem non_owner_upload_is_persisted_first :
    sampleVideo.UserID ≠ 8 ∧
    (handlerUploadVideo sampleCfg videoUpload (worldOf 8) sampleStores).trace =
      [.createTemp (some "/tmp/tubely-upload.mp4123"),
        .ioCopy "/tmp/tubely-upload.mp4123" true,
        .ffmpeg "/tmp/tubely-upload.mp4123" "/tmp/tubely-upload.mp4123.processing" true,
        .ffprobe "/tmp/tubely-upload.mp4123",
        .readFile "/tmp/tubely-upload.mp4123.processing" true,
        .putObject "landscape/AAAA.mp4" true,
        .getVideo 1 (some sampleVideo), .respond 401,
        .osRemove "/tmp/tubely-upload.mp4123"] ∧
    (handlerUploadVideo sampleCfg videoUpload (worldOf 8) sampleStores).st.bucket =
      [("landscape/AAAA.mp4", [1, 2, 3, 4])] ∧
    (handlerUploadThumbnail sampleCfg thumbnailUpload (worldOf 8) sampleStores).trace =
      [.osCreate "assets/AAAA.jpeg" true, .ioCopy "assets/AAAA.jpeg" true,
        .readAll true, .getVideo 1 (some sampleVideo), .respond 401] ∧
    fileContent (handlerUploadThumbnail sampleCfg thumbnailUpload (worldOf 8)
      sampleStores).st.fs "assets/AAAA.jpeg" = some [255, 216, 255, 224] := by
  decide

/-- C9 as amended: the ownership check guards only the cache insert and the record
update. When `GetVideo` returns a record that the principal does not own, neither
handler inserts a cache entry or calls `UpdateVideo`, and the cache and the record
store are unchanged. By then `handlerUploadVideo` has created the temporary file, copied
the upload, run `ffmpeg` and `ffprobe`, read the processed file and issued `PutObject`,
and it answers 401; `handlerUploadThumbnail` has created the asset file and copied the
part into it, and the file holds the bytes of the part. -/
theorem ownership_check_guards_only_the_update (cfg : apiConfig) (r : Request)
    (w : World) (st : Stores) (token : String) (p id : UUID) (v : Video)
    (htok : r.bearer = some token)
    (hjwt : w.ValidateJWT token cfg.jwtSecret = some p)
    (hne : v.UserID ≠ p) :
    (Event.getVideo id (some v) ∈ (handlerUploadVideo cfg r w st).trace →
      (∃ tmp ratio, (handlerUploadVideo cfg r w st).trace =
        [.createTemp (some tmp), .ioCopy tmp true, .ffmpeg tmp (tmp ++ ".processing") true,
          .ffprobe tmp, .readFile (tmp ++ ".processing") true,
          .putObject (classifyKey ratio (w.randomName ++ "." ++ "mp4")) w.putObject,
          .getVideo id (some v), .respond 401, .osRemove tmp]) ∧
      (∀ i t, Event.cacheInsert i t ∉ (handlerUploadVideo cfg r w st).trace) ∧
      (∀ u ok, Event.updateVideo u ok ∉ (handlerUploadVideo cfg r w st).trace) ∧
      (handlerUploadVideo cfg r w st).st.cache = st.cache ∧
      (handlerUploadVideo cfg r w st).st.db = st.db) ∧
    (Event.getVideo id (some v) ∈ (handlerUploadThumbnail cfg r w st).trace →
      (∃ pre post path file, FormFile r.form "thumbnail" = some file ∧
        (handlerUploadThumbnail cfg r w st).trace =
          pre ++ Event.getVideo id (some v) :: post ∧
        Event.osCreate path true ∈ pre ∧ Event.ioCopy path true ∈ pre ∧
        fileContent (handlerUploadThumbnail cfg r w st).st.fs path = some file.data) ∧
      (∀ i t, Event.cacheInsert i t ∉ (handlerUploadThumbnail cfg r w st).trace) ∧
      (∀ u ok, Event.updateVideo u ok ∉ (handlerUploadThumbnail cfg r w st).trace) ∧
      (handlerUploadThumbnail cfg r w st).st.cache = st.cache ∧
      (handlerUploadThumbnail cfg r w st).st.db = st.db) := by
  constructor
  · intro hget
    obtain ⟨⟨tmp, ratio, htr⟩, hc, hd⟩ :=
      video_run_of_mismatch cfg r w st token p id v htok hjwt hne hget
    refine ⟨⟨tmp, ratio, htr⟩, ?_, ?_, hc, hd⟩
    · intro i t
      rw [htr]
      simp
    · intro u ok
      rw [htr]
      simp
  · intro hget
    obtain ⟨pre, path, file, hpre, hfile, htr, hfc, hc, hd⟩ :=
      thumbnail_run_of_mismatch cfg r w st token p id v htok hjwt hne hget
    refine ⟨⟨pre ++ [.osCreate path true, .ioCopy path true, .readAll true],
      [.respond 401], path, file, hfile, ?_, ?_, ?_, hfc⟩, ?_, ?_, hc, hd⟩
    · rw [htr]
      simp
    · simp
    · simp
    · intro i t
      rw [htr]
      rcases hpre with rfl | rfl <;> simp
    · intro u ok
      rw [htr]
      rcases hpre with rfl | rfl <;> simp

/-- Witness of C9 as amended: principal 8 uploads for video 1, owned by principal 7. -/
theorem ownership_check_guards_only_the_update_witness :
    videoUpload.bearer = some "token" ∧ thumbnailUpload.bearer = some "token" ∧
    (worldOf 8).ValidateJWT "token" sampleCfg.jwtSecret = some 8 ∧
    sampleVideo.UserID ≠ 8 ∧
    Event.getVideo 1 (some sampleVideo) ∈
      (handlerUploadVideo sampleCfg videoUpload (worldOf 8) sampleStores).trace ∧
    Event.getVideo 1 (some sampleVideo) ∈
      (handlerUploadThumbnail sampleCfg thumbnailUpload (worldOf 8) sampleStores).trace ∧
    (handlerUploadVideo sampleCfg videoUpload (worldOf 8) sampleStores).st.db
      = sampleStores.db ∧
    (∀ i t, Event.cacheInsert i t ∉
      (handlerUploadThumbnail sampleCfg thumbnailUpload (worldOf 8) sampleStores).trace) ∧
    (∀ u ok, Event.updateVideo u ok ∉
      (handlerUploadThumbnail sampleCfg thumbnailUpload (worldOf 8) sampleStores).trace) ∧
    (handlerUploadThumbnail sampleCfg thumbnailUpload (worldOf 8) sampleStores).st.cache
      = sampleStores.cache :=
  have hv := (ownership_check_guards_only_the_update sampleCfg videoUpload (worldOf 8)
    sampleStores "token" 8 1 sampleVideo (by decide) (by decide) (by decide)).1 (by decide)
  have ht := (ownership_check_guards_only_the_update sampleCfg thumbnailUpload (worldOf 8)
    sampleStores "token" 8 1 sampleVideo (by decide) (by decide) (by decide)).2 (by decide)
  ⟨by decide, by decide, by decide, by decide, by decide, by decide, hv.2.2.2.2,
    ht.2.1, ht.2.2.1, ht.2.2.2.1⟩

/-- C10: evaluation of `handlerUploadThumbnail` at a part declared `foo`, which parses
without error to a media type without slash, and at a part declared `image/`, which
does not parse: both runs index the split out of range. `handlerUploadVideo` never
does. -/
theorem thumbnail_extension_index_out_of_range :
    ParseMediaType .ok "foo" = ("foo", none) ∧
    fileExtensionOf "foo" = none ∧
    (handlerUploadThumbnail sampleCfg (requestOf "thumbnail" "foo" [255, 216] 500)
      (worldOf 7) sampleStores).trace = [.indexOutOfRange] ∧
    ParseMediaType .ok "image/" = ("", some "mime: expected token after slash") ∧
    fileExtensionOf "" = none ∧
    (handlerUploadThumbnail sampleCfg (requestOf "thumbnail" "image/" [255, 216] 500)
      (worldOf 7) sampleStores).trace = [.respond 500, .indexOutOfRange] ∧
    (∀ cfg r w st, Event.indexOutOfRange ∉ (handlerUploadVideo cfg r w st).trace) := by
  refine ⟨by decide, by decide, by decide, by decide, by decide, by decide, ?_⟩
  intro cfg r w st
  unfold handlerUploadVideo uploadVideoStaged
  simp only [Run.emit, Run.withFs, Run.withBucket, Run.withDb, List.nil_append]
  repeat' split
  all_goals simp_all [fileExtensionOf_mp4]

end Tubely
